import Mathlib

/-!
Verification development for `cos_monitoring/osm/monitor.py`, the COS shift
monitoring pipeline.  The embedding is shallow: FITS tables become lists of
records, float values become rationals, header lookups become structure
fields, and fallible operations return `Option`.
-/

/-! ## String helpers (Python `in`, `replace`, `split`) -/

/-- Does `pat` match at the head of `l`? -/
def takeEq : List Char → List Char → Bool
  | [], _ => true
  | _ :: _, [] => false
  | p :: ps, c :: cs => p == c && takeEq ps cs

/-- Does `pat` occur anywhere in `l`? -/
def subOcc (pat : List Char) : List Char → Bool
  | [] => takeEq pat []
  | c :: cs => takeEq pat (c :: cs) || subOcc pat cs

/-- Python substring test `pat in s`. -/
def strContains (s pat : String) : Bool := subOcc pat.data s.data

/-- Replace every non-overlapping occurrence of `pat` by `rep`, left to
right; `fuel` bounds the recursion and is instantiated with the length of
the scanned list. -/
def replChars (pat rep : List Char) : Nat → List Char → List Char
  | _, [] => []
  | 0, l => l
  | fuel + 1, c :: cs =>
    if takeEq pat (c :: cs) && !pat.isEmpty then
      rep ++ replChars pat rep fuel (List.drop (pat.length - 1) cs)
    else
      c :: replChars pat rep fuel cs

/-- Python `s.replace(pat, rep)`. -/
def strReplace (s pat rep : String) : String :=
  ⟨replChars pat.data rep.data s.data.length s.data⟩

/-- Python `s.split('$')[-1]`: the characters after the last dollar sign
(the whole list when no dollar sign occurs). -/
def afterLastDollar (l : List Char) : List Char :=
  l.foldl (fun acc c => if c == '$' then [] else acc ++ [c]) []

/-- The reference-file name as stored by the extractor:
`header['LAMPTAB'].split('$')[-1]`. -/
def lamptabName (s : String) : String := ⟨afterLastDollar s.data⟩

/-! ## Numeric helpers -/

/-- Rounding to 5 decimal places, modelling `round(x, 5)` on the rational
embedding of the float values. -/
def round5 (q : ℚ) : ℚ := (round (q * 100000) : ℚ) / 100000

/-- Python `int()` truncation toward zero, applied to MJD timestamps. -/
def pyTrunc (q : ℚ) : ℤ := if 0 ≤ q then ⌊q⌋ else -⌊-q⌋

/-- Sorted copy of a list of rationals. -/
def sortQ (l : List ℚ) : List ℚ := l.insertionSort (fun a b => a ≤ b)

/-- Model of `np.median`: middle element of the sorted list, or the mean of
the two middle elements for even length; `none` on the empty list, where
numpy produces nan. -/
def npMedian (l : List ℚ) : Option ℚ :=
  if l.length = 0 then none
  else if l.length % 2 = 1 then (sortQ l)[l.length / 2]?
  else
    match (sortQ l)[l.length / 2 - 1]?, (sortQ l)[l.length / 2]? with
    | some a, some b => some ((a + b) / 2)
    | _, _ => none

/-- Integer range `[lo, hi]` inclusive, modelling
`range(xdata.min(), xdata.max() + 1)`. -/
def intRange (lo hi : ℤ) : List ℤ :=
  (List.range (hi + 1 - lo).toNat).map (fun k => lo + k)

/-- Least-squares slope over a list of points: the slope computed by
`scipy.stats.linregress` (an external library, embedded by its standard
ordinary-least-squares formula). -/
def olsSlope (pts : List (ℚ × ℚ)) : ℚ :=
  let n : ℚ := pts.length
  let sx := (pts.map Prod.fst).sum
  let sy := (pts.map Prod.snd).sum
  let sxy := (pts.map (fun p => p.1 * p.2)).sum
  let sxx := (pts.map (fun p => p.1 * p.1)).sum
  (n * sxy - sx * sy) / (n * sxx - sx * sx)

/-- Least-squares intercept of `scipy.stats.linregress`. -/
def olsIntercept (pts : List (ℚ × ℚ)) : ℚ :=
  let n : ℚ := pts.length
  ((pts.map Prod.snd).sum - olsSlope pts * (pts.map Prod.fst).sum) / n

/-- `fit_data(xdata, ydata)` of monitor.py, reduced to the (slope,
intercept) pair it derives from `linregress(xdata, ydata)`; the returned
`fit` array is `polyval` of this pair over `xdata` and `err` is the fixed
placeholder 0. -/
def fit_data (xdata ydata : List ℚ) : ℚ × ℚ :=
  (olsSlope (xdata.zip ydata), olsIntercept (xdata.zip ydata))

/-! ## Data model -/

/-- One row of a lamp reference table (LAMPTAB). -/
structure LamptabRow where
  segment : String
  opt_elem : String
  cenwave : ℤ
  fpoffset : ℤ
  fp_pixel_shift : ℚ
deriving DecidableEq

/-- A lamp reference table: its rows, plus whether the column `FPOFFSET`
is part of the schema (`'FPOFFSET' in lamptab.names`). -/
structure Lamptab where
  hasFPOFFSET : Bool
  rows : List LamptabRow
deriving DecidableEq

/-- One row of the binary table extension of a multi-flash exposure file. -/
structure FlashRow where
  segment : String
  shift_disp : ℚ
  shift_xdisp : ℚ
  spec_found : Bool
deriving DecidableEq

/-- The two pointing keywords of a companion support (spt) file header. -/
structure SptHeader where
  lqtaycor : ℤ
  lqtaxcor : ℤ
deriving DecidableEq

/-- An exposure product file: primary and first-extension header fields
read by monitor.py, plus the table rows.  `fppos` is
`header.get('FPPOS', None)`; `dataNone` models `hdu[1].data == None`. -/
structure FitsFile where
  filename : String
  expstart : ℚ
  proposid : ℤ
  detector : String
  opt_elem : String
  cenwave : ℤ
  fppos : Option ℤ
  lamptab : String
  rows : List FlashRow
  exptime : ℚ
  numflash : ℤ
  dataNone : Bool
deriving DecidableEq

/-- The file-system environment: lamp reference tables under `lref` keyed
by file name, and companion spt files keyed by path (missing file:
`none`). -/
structure Env where
  lamptabs : String → Lamptab
  spt : String → Option SptHeader

/-- The `out_info` dictionary built by `pull_flashes`.  The first seven
fields are filled on entry; `flash`, `x_shift`, `y_shift` and `found` are
keys added later (hence `Option`, with `none` for both an absent key and a
Python `None` value). -/
structure OutInfo where
  date : ℚ
  proposid : ℤ
  detector : String
  opt_elem : String
  cenwave : ℤ
  fppos : Option ℤ
  lamptab : String
  flash : Option ℕ
  x_shift : Option ℚ
  y_shift : Option ℚ
  found : Option Bool
deriving DecidableEq

/-! ## ReferenceTableResolver: `fppos_shift` -/

/-- The row filter of `fppos_shift`: exact equality on all four key
fields. -/
def keyMatch (seg oe : String) (cw fp : ℤ) (r : LamptabRow) : Bool :=
  r.segment == seg && r.opt_elem == oe && r.cenwave == cw && r.fpoffset == fp

/-- `fppos_shift(lamptab_name, segment, opt_elem, cenwave, fpoffset)` with
the table already fetched.  Returns `some 0` when the schema lacks
`FPOFFSET`; otherwise the `FP_PIXEL_SHIFT` of the first matching row, and
`none` for the `IndexError` the source raises when no row matches. -/
def fppos_shift (t : Lamptab) (seg oe : String) (cw fp : ℤ) : Option ℚ :=
  if t.hasFPOFFSET = false then some 0
  else ((t.rows.filter (keyMatch seg oe cw fp)).head?).map (fun r => r.fp_pixel_shift)

/-! ## FlashRecordExtractor: `pull_flashes` -/

/-- The `out_info` dictionary as first built from the headers. -/
def baseOutInfo (f : FitsFile) : OutInfo :=
  { date := f.expstart, proposid := f.proposid, detector := f.detector,
    opt_elem := f.opt_elem, cenwave := f.cenwave, fppos := f.fppos,
    lamptab := lamptabName f.lamptab,
    flash := none, x_shift := none, y_shift := none, found := none }

/-- The reference offset resolved for one flash row:
`fppos_shift(out_info['lamptab'], line['segment'], out_info['opt_elem'],
out_info['cenwave'], fpoffset)` with `fpoffset = fppos - 3`. -/
def resolveOf (env : Env) (f : FitsFile) (fpz : ℤ) (r : FlashRow) : Option ℚ :=
  fppos_shift (env.lamptabs (lamptabName f.lamptab)) r.segment f.opt_elem f.cenwave (fpz - 3)

/-- The record yielded for row index `i` of a multi-flash file. -/
def lampRecord (env : Env) (f : FitsFile) (fpz : ℤ) (i : ℕ) (r : FlashRow) : Option OutInfo :=
  (resolveOf env f fpz r).map (fun off =>
    { baseOutInfo f with
      flash := some (i / 2 + 1),
      x_shift := some (round5 (r.shift_disp - off)),
      y_shift := some (round5 r.shift_xdisp),
      found := some r.spec_found })

/-- The sequence of records yielded for the rows of a multi-flash file,
starting at row index `i`; `none` when a reference lookup fails (the
source raises out of the generator). -/
def lampRecords (env : Env) (f : FitsFile) (fpz : ℤ) : ℕ → List FlashRow → Option (List OutInfo)
  | _, [] => some []
  | i, r :: rs =>
    match lampRecord env f fpz i r with
    | none => none
    | some o => (lampRecords env f fpz (i + 1) rs).map (fun os => o :: os)

/-- The single synthetic record of a `_rawacq.fits.gz` file. -/
def rawacqRecord (f : FitsFile) (spt : SptHeader) : OutInfo :=
  { baseOutInfo f with
    found := some false,
    fppos := some (-1),
    flash := some 1,
    x_shift := if 0 < spt.lqtaycor then some ((1023 : ℚ) - (spt.lqtaycor : ℚ)) else none,
    y_shift := if 0 < spt.lqtaycor then some ((1023 : ℚ) - (spt.lqtaxcor : ℚ)) else none }

/-- `pull_flashes(filename)`: the full (finite) sequence of records the
generator yields for one file, with `none` for the error cases in which
the source raises (absent FPPOS key used in arithmetic, failed reference
lookup, missing companion file). -/
def pull_flashes (env : Env) (f : FitsFile) : Option (List OutInfo) :=
  if strContains f.filename "_lampflash.fits" then
    match f.fppos with
    | none => none
    | some fpz => lampRecords env f fpz 0 f.rows
  else if strContains f.filename "_rawacq.fits.gz" then
    match env.spt (strReplace f.filename "rawacq" "spt") with
    | none => none
    | some spt => some [rawacqRecord f spt]
  else some []

/-! ## The shared mutable `out_info` dictionary

`pull_flashes` builds ONE dictionary and yields the same object on every
iteration, overwriting `flash`, `x_shift`, `y_shift` and `found` in place.
`genStep`/`genStates` embed this execution as explicit state passing: the
t-th element of `genStates` is the content of the dictionary right after
iteration t, which is also the value every previously yielded reference
exhibits at that time.  -/

/-- One loop iteration of the multi-flash branch as an in-place update of
the shared dictionary `st`. -/
def genStep (env : Env) (fpz : ℤ) (st : OutInfo) (i : ℕ) (r : FlashRow) : Option OutInfo :=
  (fppos_shift (env.lamptabs st.lamptab) r.segment st.opt_elem st.cenwave (fpz - 3)).map
    (fun off =>
      { st with
        flash := some (i / 2 + 1),
        x_shift := some (round5 (r.shift_disp - off)),
        y_shift := some (round5 r.shift_xdisp),
        found := some r.spec_found })

/-- The successive contents of the shared dictionary, one entry per loop
iteration of the multi-flash branch. -/
def genStates (env : Env) (fpz : ℤ) : OutInfo → ℕ → List FlashRow → Option (List OutInfo)
  | _, _, [] => some []
  | st, i, r :: rs =>
    match genStep env fpz st i r with
    | none => none
    | some st2 => (genStates env fpz st2 (i + 1) rs).map (fun os => st2 :: os)

/-- The value any already-yielded reference observes after iteration `t`
has completed: every yield returns the same dictionary object, so the
observation is the t-th state, independent of which yield produced the
reference. -/
def observedAt (states : List OutInfo) (t : ℕ) : Option OutInfo := states[t]?

/-! ## DriftScanner: `check_internal_drift` -/

/-- One line of the drift log. -/
structure DriftRow where
  filePath : String
  segment : String
  diff : ℚ
  exptime : ℚ
deriving DecidableEq

/-- The cross-dispersion shifts of the rows matching one segment:
`hdu[1].data[index]['SHIFT_XDISP']` for `index = np.where(segment == seg)`. -/
def xdispVals (rows : List FlashRow) (seg : String) : List ℚ :=
  (rows.filter (fun r => r.segment == seg)).map (fun r => r.shift_xdisp)

/-- The per-segment spread `max - min` of the cross-dispersion shifts,
computed only when more than one row matches the segment
(`if len(index) > 1`). -/
def segmentSpread (rows : List FlashRow) (seg : String) : Option ℚ :=
  if 1 < (xdispVals rows seg).length then
    match (xdispVals rows seg).max?, (xdispVals rows seg).min? with
    | some mx, some mn => some (mx - mn)
    | _, _ => none
  else none

/-- `os.path.join(root, infile)` for the already-separated paths of the
walk. -/
def pathJoin (root nm : String) : String := root ++ "/" ++ nm

/-- The summary rows one file appends to `data`: one per FUV segment with
more than one matching flash row. -/
def fileDriftRows (path : String) (f : FitsFile) : List DriftRow :=
  ["FUVA", "FUVB"].filterMap (fun seg =>
    (segmentSpread f.rows seg).map (fun d =>
      { filePath := path, segment := seg, diff := d, exptime := f.exptime }))

/-- One file of the corpus walk: the directory that contains it (already
past the path filters of the walk), its basename, and its content. -/
structure WalkFile where
  root : String
  name : String
  file : FitsFile
deriving DecidableEq

/-- The per-file step of `check_internal_drift` over the state
`(checked, data)`.  A basename already in `checked` is skipped; so is a
file failing any filter.  The `checked.append` right after the
`continue` of the name filter in the source (line 144) is unreachable and
therefore absent; only a file that passes every filter is recorded. -/
def processFile (st : List String × List DriftRow) (wf : WalkFile) :
    List String × List DriftRow :=
  if wf.name ∈ st.1 then st
  else if strContains wf.name "_lampflash.fits" = false then st
  else if wf.file.detector = "NUV" then st
  else if wf.file.dataNone = true then st
  else if ¬ 1 < wf.file.numflash then st
  else (st.1 ++ [wf.name], st.2 ++ fileDriftRows (pathJoin wf.root wf.name) wf.file)

/-- The `(checked, data)` state after scanning the whole walk. -/
def scanState (walk : List WalkFile) : List String × List DriftRow :=
  walk.foldl processFile ([], [])

/-- `check_internal_drift()`: the summary rows collected over the corpus
walk, in order. -/
def check_internal_drift (walk : List WalkFile) : List DriftRow := (scanState walk).2

/-- The per-file filters that must all pass for a file to be processed and
its basename recorded. -/
def passesFilters (wf : WalkFile) : Prop :=
  strContains wf.name "_lampflash.fits" = true ∧ wf.file.detector ≠ "NUV" ∧
    wf.file.dataNone = false ∧ 1 < wf.file.numflash

/-- One formatted line of the drift log:
`'{} {} {} {}\n'.format(path, segment, diff, exptime)` (trailing newline
left implicit in the line-list model). -/
def formatDriftLine (row : DriftRow) : String :=
  row.filePath ++ " " ++ row.segment ++ " " ++ toString row.diff ++ " " ++ toString row.exptime

/-- The drift-log file content after the scan writes its rows.  The source
opens `drift.txt` with mode `'w'`, which truncates: the resulting content
is exactly the written lines, whatever the file held before
(`priorLines`). -/
def writeDriftLog (_priorLines : List String) (rows : List DriftRow) : List String :=
  rows.map formatDriftLine

/-! ## ShiftAggregator: `make_plots` and `fit_data` call sites -/

/-- One row of the aggregated all-shifts table consumed by `make_plots`
and `fp_diff`. -/
structure ShiftRow where
  mjd : ℚ
  dataset : String
  detector : String
  opt_elem : String
  cenwave : ℤ
  segment : String
  fppos : ℤ
  x_shift : ℚ
deriving DecidableEq

/-- The raw (MJD, X_SHIFT) pairs of a configuration bucket. -/
def bucketPairs (b : List ShiftRow) : List (ℚ × ℚ) := b.map (fun r => (r.mjd, r.x_shift))

/-- The fit drawn on a trend panel:
`fit_data(data['MJD'][index], data['X_SHIFT'][index])` over the raw rows
selected into the bucket. -/
def panelFit (b : List ShiftRow) : ℚ × ℚ :=
  fit_data (b.map (fun r => r.mjd)) (b.map (fun r => r.x_shift))

/-- The shift values of one integer day within a bucket:
`ydata[np.where(xdata == day)]` for `xdata = map(int, data['MJD'][index])`. -/
def dayVals (b : List ShiftRow) (d : ℤ) : List ℚ :=
  ((b.map (fun r => pyTrunc r.mjd)).zip (b.map (fun r => r.x_shift))).filterMap
    (fun p => if p.1 = d then some p.2 else none)

/-- The series plotted by the per-grating cenwave loop of `make_plots`
(source lines 507-516): one `np.median` per integer day from
`xdata.min()` to `xdata.max()`, including days with no data (whose median
is undefined). -/
def cenwavePlotSeries (b : List ShiftRow) : List (ℤ × Option ℚ) :=
  match (b.map (fun r => pyTrunc r.mjd)).min?, (b.map (fun r => pyTrunc r.mjd)).max? with
  | some lo, some hi => (intRange lo hi).map (fun d => (d, npMedian (dayVals b d)))
  | _, _ => []

/-- Modelled from the spec: "truncate timestamps to integer-day
resolution, compute the median dispersion-shift per distinct day" — one
median per distinct day PRESENT in the bucket, stated here for comparison
with the series the code computes and fits. -/
def specPerDayMedians (pts : List (ℚ × ℚ)) : List (ℤ × ℚ) :=
  ((pts.map (fun p => pyTrunc p.1)).dedup).filterMap
    (fun d => (npMedian ((pts.filter (fun p => decide (pyTrunc p.1 = d))).map Prod.snd)).map
      (fun m => (d, m)))

/-- The spec's reduced series as fit input points. -/
def specPerDayPairs (b : List ShiftRow) : List (ℚ × ℚ) :=
  (specPerDayMedians (bucketPairs b)).map (fun p => ((p.1 : ℚ), p.2))

/-! ## `fp_diff`: the cross-segment differential logic (lines 600-638) -/

/-- The FUV-filtered shift table: `data[np.where(detector == 'FUV')]`. -/
def fuvData (tbl : List ShiftRow) : List ShiftRow := tbl.filter (fun r => r.detector == "FUV")

/-- `datasets = list(set(data['dataset'])); datasets.sort()`. -/
def sortedDatasets (tbl : List ShiftRow) : List String :=
  (((fuvData tbl).map (fun r => r.dataset)).dedup).insertionSort (fun a b => a ≤ b)

/-- The first row of `data` with the given dataset name and segment
(`data[np.where(dataset == name & segment == seg)][0]`); `none` models the
`IndexError` of an empty selection. -/
def firstWhere (data : List ShiftRow) (nm seg : String) : Option ShiftRow :=
  (data.filter (fun r => r.dataset == nm && r.segment == seg)).head?

/-- One dataset's differential: the `(cenwave, mjd, a_shift - b_shift)`
appended for a dataset with both segment rows, `none` when the
`except IndexError: continue` path is taken. -/
def datasetDiff (data : List ShiftRow) (nm : String) : Option (ℤ × ℚ × ℚ) :=
  match firstWhere data nm "FUVA", firstWhere data nm "FUVB" with
  | some a, some b => some (a.cenwave, a.mjd, a.x_shift - b.x_shift)
  | _, _ => none

/-- The contribution of one dataset name to the bucket `diff_dict[cw]`. -/
def fpEntry (tbl : List ShiftRow) (cw : ℤ) (nm : String) : Option (ℚ × ℚ) :=
  match datasetDiff (fuvData tbl) nm with
  | none => none
  | some (c, m, d) => if c = cw then some (m, d) else none

/-- `diff_dict[cw]` after the dataset loop: the `(mjd, diff)` pairs of the
datasets whose first-FUVA-row cenwave is `cw`, in sorted dataset order. -/
def fp_diff_entries (tbl : List ShiftRow) (cw : ℤ) : List (ℚ × ℚ) :=
  (sortedDatasets tbl).filterMap (fpEntry tbl cw)

/-! ## Python local-name semantics for `fp_diff` (lines 596-599)

A name assigned anywhere in a Python function body is a local name
throughout the body; evaluating it before its first binding raises
UnboundLocalError.  The statements of `fp_diff` after the failing one are
abbreviated to their assignment targets and name references, which is all
this analysis reads; the first two statements are structurally faithful. -/

/-- An opaque runtime value tagged with its provenance. -/
inductive PyVal where
  | obj : String → PyVal
deriving DecidableEq

/-- The error of reading a local name before it is bound. -/
inductive PyErr where
  | unboundLocal : String → PyErr
deriving DecidableEq

/-- Expressions: literals, name references, attribute access, and a call
with one argument slot (Python evaluates the callable before the
arguments, so one slot suffices here). -/
inductive PyExpr where
  | lit : String → PyExpr
  | name : String → PyExpr
  | attr : PyExpr → String → PyExpr
  | call : PyExpr → PyExpr → PyExpr
deriving DecidableEq

/-- Statements: the Python 2 print of a string literal (no name lookup),
and assignment to a simple name. -/
inductive PyStmt where
  | printLit : String → PyStmt
  | assign : String → PyExpr → PyStmt
deriving DecidableEq

/-- The assignment targets of a statement list: exactly the local names
of the function body. -/
def assignedIn : List PyStmt → List String
  | [] => []
  | PyStmt.assign n _ :: rest => n :: assignedIn rest
  | _ :: rest => assignedIn rest

/-- Expression evaluation under Python's scoping rule: a name in
`localNames` resolves only through `locals` and raises when unbound there,
even if a global of the same name exists. -/
def evalExpr (localNames : List String) (globals : String → PyVal)
    (locals : List (String × PyVal)) : PyExpr → Except PyErr PyVal
  | PyExpr.lit s => Except.ok (PyVal.obj s)
  | PyExpr.name n =>
    if n ∈ localNames then
      match locals.lookup n with
      | some v => Except.ok v
      | none => Except.error (PyErr.unboundLocal n)
    else Except.ok (globals n)
  | PyExpr.attr e fld =>
    match evalExpr localNames globals locals e with
    | Except.error err => Except.error err
    | Except.ok (PyVal.obj t) => Except.ok (PyVal.obj (t ++ "." ++ fld))
  | PyExpr.call g a =>
    match evalExpr localNames globals locals g with
    | Except.error err => Except.error err
    | Except.ok (PyVal.obj t) =>
      match evalExpr localNames globals locals a with
      | Except.error err => Except.error err
      | Except.ok _ => Except.ok (PyVal.obj (t ++ "()"))

/-- Statement execution; on failure, returns the error with the index of
the failing statement. -/
def runStmts (localNames : List String) (globals : String → PyVal) :
    List (String × PyVal) → ℕ → List PyStmt → Except (PyErr × ℕ) (List (String × PyVal))
  | locals, _, [] => Except.ok locals
  | locals, k, PyStmt.printLit _ :: rest => runStmts localNames globals locals (k + 1) rest
  | locals, k, PyStmt.assign n e :: rest =>
    match evalExpr localNames globals locals e with
    | Except.error err => Except.error (err, k)
    | Except.ok v => runStmts localNames globals ((n, v) :: locals) (k + 1) rest

/-- Run a function body from an empty local frame, with the local-name
set computed from the body's own assignment targets. -/
def runFunctionBody (globals : String → PyVal) (body : List PyStmt) :
    Except (PyErr × ℕ) (List (String × PyVal)) :=
  runStmts (assignedIn body) globals [] 0 body

/-- The body of `fp_diff`: the print, then
`fits = fits.open(os.path.join(MONITOR_DIR, 'all_shifts.fits'))`, then the
following statements abbreviated to their assignment targets. -/
def fp_diff_body : List PyStmt :=
  [ PyStmt.printLit "Checking the SHIFT2 difference",
    PyStmt.assign "fits"
      (PyExpr.call (PyExpr.attr (PyExpr.name "fits") "open")
        (PyExpr.call (PyExpr.attr (PyExpr.attr (PyExpr.name "os") "path") "join")
          (PyExpr.name "MONITOR_DIR"))),
    PyStmt.assign "data" (PyExpr.attr (PyExpr.name "fits") "data"),
    PyStmt.assign "index" (PyExpr.call (PyExpr.attr (PyExpr.name "np") "where") (PyExpr.name "data")),
    PyStmt.assign "data" (PyExpr.name "data"),
    PyStmt.assign "datasets" (PyExpr.call (PyExpr.name "list") (PyExpr.name "data")),
    PyStmt.assign "all_cenwaves" (PyExpr.call (PyExpr.name "set") (PyExpr.name "data")),
    PyStmt.assign "diff_dict" (PyExpr.lit "empty dict"),
    PyStmt.assign "ofile" (PyExpr.call (PyExpr.name "open") (PyExpr.name "MONITOR_DIR")) ]

/-! ## Concrete inputs used by the witnesses and counterexamples -/

/-- A lamp table with the `FPOFFSET` column and one matching row whose
offset is 1.2345 (= 2469/2000). -/
def exTab1 : Lamptab :=
  { hasFPOFFSET := true,
    rows := [{ segment := "FUVA", opt_elem := "G130M", cenwave := 1291,
               fpoffset := 0, fp_pixel_shift := 2469/2000 }] }

/-- Environment serving `exTab1` for every reference-file name. -/
def exEnv1 : Env := { lamptabs := fun _ => exTab1, spt := fun _ => none }

/-- A one-flash multi-flash exposure file with reported dispersion shift
10.0. -/
def exFile1 : FitsFile :=
  { filename := "x_lampflash.fits", expstart := 56000, proposid := 1,
    detector := "FUV", opt_elem := "G130M", cenwave := 1291, fppos := some 3,
    lamptab := "lref$abc_lamp.fits",
    rows := [{ segment := "FUVA", shift_disp := 10, shift_xdisp := 1/4, spec_found := true }],
    exptime := 100, numflash := 2, dataNone := false }

/-- A lamp table whose first row does not match the probed key and whose
second row does, with offset 1.2345 (= 2469/2000). -/
def exTab2 : Lamptab :=
  { hasFPOFFSET := true,
    rows := [{ segment := "FUVB", opt_elem := "G160M", cenwave := 1600,
               fpoffset := 1, fp_pixel_shift := 7 },
             { segment := "FUVA", opt_elem := "G130M", cenwave := 1291,
               fpoffset := 0, fp_pixel_shift := 2469/2000 }] }

/-- A lamp table without the `FPOFFSET` column. -/
def exTabNo2 : Lamptab := { hasFPOFFSET := false, rows := [] }

/-- A single-acquisition exposure file. -/
def exFile3 : FitsFile :=
  { filename := "y_rawacq.fits.gz", expstart := 56001, proposid := 2,
    detector := "FUV", opt_elem := "G140L", cenwave := 1105, fppos := none,
    lamptab := "lref$abc_lamp.fits", rows := [],
    exptime := 1, numflash := 0, dataNone := false }

/-- Companion header with LQTAYCOR=500, LQTAXCOR=300. -/
def exSpt3 : SptHeader := { lqtaycor := 500, lqtaxcor := 300 }

/-- Environment serving `exSpt3` under the substituted companion name of
`exFile3`. -/
def exEnv3 : Env :=
  { lamptabs := fun _ => { hasFPOFFSET := false, rows := [] },
    spt := fun s => if s = "y_spt.fits.gz" then some exSpt3 else none }

/-- A file whose FUVA rows carry cross-dispersion values
[0.5, -0.3, 0.1]. -/
def exFile4 : FitsFile :=
  { filename := "w_lampflash.fits", expstart := 56002, proposid := 3,
    detector := "FUV", opt_elem := "G130M", cenwave := 1291, fppos := some 3,
    lamptab := "abc_lamp.fits",
    rows := [{ segment := "FUVA", shift_disp := 0, shift_xdisp := 1/2, spec_found := true },
             { segment := "FUVA", shift_disp := 0, shift_xdisp := -3/10, spec_found := true },
             { segment := "FUVA", shift_disp := 0, shift_xdisp := 1/10, spec_found := true }],
    exptime := 88, numflash := 3, dataNone := false }

/-- A drift summary row used to exercise the drift-log write. -/
def exRow5 : DriftRow := { filePath := "p", segment := "FUVA", diff := 1, exptime := 2 }

/-- Environment whose lamp table lacks the offset column (offset 0 for
every lookup). -/
def exEnv6 : Env :=
  { lamptabs := fun _ => { hasFPOFFSET := false, rows := [] }, spt := fun _ => none }

/-- A two-flash file whose two rows differ in every per-row field. -/
def exFile6 : FitsFile :=
  { filename := "z_lampflash.fits", expstart := 56003, proposid := 4,
    detector := "FUV", opt_elem := "G130M", cenwave := 1291, fppos := some 3,
    lamptab := "abc_lamp.fits",
    rows := [{ segment := "FUVA", shift_disp := 1, shift_xdisp := 2, spec_found := true },
             { segment := "FUVA", shift_disp := 3, shift_xdisp := 4, spec_found := false }],
    exptime := 50, numflash := 2, dataNone := false }

/-- A bucket with three exposures on day 0 (shifts 0, 0, 9) and one on
day 1 (shift 1): the raw-series OLS slope is -2 while the per-day-median
series [(0,0),(1,1)] has slope 1. -/
def exB7 : List ShiftRow :=
  [ { mjd := 0, dataset := "a", detector := "FUV", opt_elem := "G130M",
      cenwave := 1291, segment := "FUVA", fppos := 1, x_shift := 0 },
    { mjd := 0, dataset := "b", detector := "FUV", opt_elem := "G130M",
      cenwave := 1291, segment := "FUVA", fppos := 1, x_shift := 0 },
    { mjd := 0, dataset := "c", detector := "FUV", opt_elem := "G130M",
      cenwave := 1291, segment := "FUVA", fppos := 1, x_shift := 9 },
    { mjd := 1, dataset := "d", detector := "FUV", opt_elem := "G130M",
      cenwave := 1291, segment := "FUVA", fppos := 1, x_shift := 1 } ]

/-- A bucket with data on days 0 and 2 only: the plotted series covers
days 0, 1, 2 (with an undefined median on day 1) while the spec's
distinct-day series has two entries. -/
def exB7gap : List ShiftRow :=
  [ { mjd := 0, dataset := "a", detector := "FUV", opt_elem := "G130M",
      cenwave := 1291, segment := "FUVA", fppos := 1, x_shift := 1 },
    { mjd := 2, dataset := "b", detector := "FUV", opt_elem := "G130M",
      cenwave := 1291, segment := "FUVA", fppos := 1, x_shift := 5 } ]

/-- An NUV file: it is filtered out of the scan and its basename is NOT
recorded as checked. -/
def exW8nuv : WalkFile :=
  { root := "/smov/cos/Data/a", name := "x8_lampflash.fits",
    file := { filename := "x8_lampflash.fits", expstart := 56004, proposid := 5,
              detector := "NUV", opt_elem := "G185M", cenwave := 1786, fppos := some 3,
              lamptab := "abc_lamp.fits", rows := [],
              exptime := 10, numflash := 2, dataNone := false } }

/-- A valid FUV file with the SAME basename as `exW8nuv`, seen later in
the walk. -/
def exW8fuv : WalkFile :=
  { root := "/smov/cos/Data/b", name := "x8_lampflash.fits",
    file := { filename := "x8_lampflash.fits", expstart := 56005, proposid := 5,
              detector := "FUV", opt_elem := "G130M", cenwave := 1291, fppos := some 3,
              lamptab := "abc_lamp.fits",
              rows := [{ segment := "FUVA", shift_disp := 0, shift_xdisp := 1/2, spec_found := true },
                       { segment := "FUVA", shift_disp := 0, shift_xdisp := -3/10, spec_found := true }],
              exptime := 100, numflash := 2, dataNone := false } }

/-- A valid FUV file that fully passes the scan filters. -/
def exW8c : WalkFile :=
  { root := "/smov/cos/Data/c", name := "y8_lampflash.fits",
    file := { filename := "y8_lampflash.fits", expstart := 56006, proposid := 6,
              detector := "FUV", opt_elem := "G130M", cenwave := 1291, fppos := some 3,
              lamptab := "abc_lamp.fits",
              rows := [{ segment := "FUVB", shift_disp := 0, shift_xdisp := 1, spec_found := true },
                       { segment := "FUVB", shift_disp := 0, shift_xdisp := 3, spec_found := true }],
              exptime := 60, numflash := 2, dataNone := false } }

/-- A later valid file sharing the basename of `exW8c`. -/
def exW8d : WalkFile :=
  { root := "/smov/cos/Data/d", name := "y8_lampflash.fits",
    file := { filename := "y8_lampflash.fits", expstart := 56007, proposid := 6,
              detector := "FUV", opt_elem := "G130M", cenwave := 1291, fppos := some 3,
              lamptab := "abc_lamp.fits",
              rows := [{ segment := "FUVB", shift_disp := 0, shift_xdisp := 2, spec_found := true },
                       { segment := "FUVB", shift_disp := 0, shift_xdisp := 5, spec_found := true }],
              exptime := 60, numflash := 2, dataNone := false } }

/-- Dataset d1, segment FUVA, x_shift 5. -/
def exA9 : ShiftRow :=
  { mjd := 10, dataset := "d1", detector := "FUV", opt_elem := "G130M",
    cenwave := 1291, segment := "FUVA", fppos := 1, x_shift := 5 }

/-- Dataset d1, segment FUVB, x_shift 3. -/
def exB9 : ShiftRow :=
  { mjd := 11, dataset := "d1", detector := "FUV", opt_elem := "G130M",
    cenwave := 1291, segment := "FUVB", fppos := 1, x_shift := 3 }

/-- Dataset d2 with only a FUVA row. -/
def exC9 : ShiftRow :=
  { mjd := 12, dataset := "d2", detector := "FUV", opt_elem := "G130M",
    cenwave := 1291, segment := "FUVA", fppos := 1, x_shift := 7 }

/-- A shift table with one complete A/B pair (d1) and one dataset missing
its FUVB row (d2). -/
def exTbl9 : List ShiftRow := [exA9, exB9, exC9]

/-! ## Helper lemmas -/

/-- The head of a list is a member. -/
theorem headSome_mem {α : Type} {l : List α} {a : α} (h : l.head? = some a) : a ∈ l := by
  cases l with
  | nil => simp at h
  | cons b t =>
    simp only [List.head?_cons, Option.some.injEq] at h
    exact h ▸ List.mem_cons_self b t

/-- The head of a filtered list is the first element satisfying the
predicate: the original list splits around it, with no satisfying element
before it. -/
theorem filterHeadSplit {α : Type} (p : α → Bool) :
    ∀ (l : List α) (x : α), (l.filter p).head? = some x →
      ∃ l₁ l₂, l = l₁ ++ x :: l₂ ∧ p x = true ∧ ∀ y ∈ l₁, p y = false := by
  intro l
  induction l with
  | nil => intro x hx; simp at hx
  | cons a t ih =>
    intro x hx
    by_cases hpa : p a = true
    · rw [List.filter_cons_of_pos hpa] at hx
      simp only [List.head?_cons, Option.some.injEq] at hx
      exact ⟨[], t, by simp [hx], hx ▸ hpa, by simp⟩
    · rw [List.filter_cons_of_neg hpa] at hx
      obtain ⟨l₁, l₂, he, hpx, hl₁⟩ := ih x hx
      refine ⟨a :: l₁, l₂, by simp [he], hpx, ?_⟩
      intro y hy
      rcases List.mem_cons.mp hy with hya | hyl
      · exact hya ▸ (Bool.not_eq_true (p a)).mp hpa
      · exact hl₁ y hyl

/-- A list element mapped to `none` contributes nothing to a `filterMap`:
removing all its occurrences does not change the result. -/
theorem filterMap_drop_none {α β : Type} [DecidableEq α] (g : α → Option β) (x : α)
    (hx : g x = none) : ∀ l : List α, l.filterMap g = (l.filter (fun y => y ≠ x)).filterMap g := by
  intro l
  induction l with
  | nil => rfl
  | cons a t ih =>
    by_cases ha : a = x
    · subst ha
      simp [List.filter_cons, List.filterMap_cons, hx, ih]
    · simp [List.filter_cons, List.filterMap_cons, ha, ih]

/-! ## C2: the reference-table resolver -/

/-- C2.  `fppos_shift` returns 0 for every key when the table lacks the
`FPOFFSET` column; otherwise any returned offset is the `FP_PIXEL_SHIFT`
of the first row matching all four key fields exactly.  The function is a
pure function of the table and the key. -/
theorem osm_C2_resolver (t : Lamptab) (seg oe : String) (cw fp : ℤ) :
    (t.hasFPOFFSET = false → fppos_shift t seg oe cw fp = some 0)
    ∧ (∀ x, t.hasFPOFFSET = true → fppos_shift t seg oe cw fp = some x →
        ∃ r l₁ l₂, t.rows = l₁ ++ r :: l₂ ∧ keyMatch seg oe cw fp r = true ∧
          (∀ y ∈ l₁, keyMatch seg oe cw fp y = false) ∧ x = r.fp_pixel_shift) := by
  constructor
  · intro h; simp [fppos_shift, h]
  · intro x ht hx
    rw [fppos_shift, ht] at hx
    simp only [Bool.true_eq_false, if_false, Option.map_eq_some'] at hx
    obtain ⟨r, hr, hxr⟩ := hx
    obtain ⟨l₁, l₂, he, hk, hl⟩ := filterHeadSplit (keyMatch seg oe cw fp) t.rows r hr
    exact ⟨r, l₁, l₂, he, hk, hl, hxr.symm⟩

/-- Witness for C2: the no-column fallback returns 0 for an arbitrary key,
and on `exTab2` the key (FUVA, G130M, 1291, 0) resolves to the offset
1.2345 of the first (and only) matching row. -/
theorem osm_C2_witness :
    fppos_shift exTabNo2 "FUVX" "GX" 7 9 = some 0
    ∧ ∃ r l₁ l₂, exTab2.rows = l₁ ++ r :: l₂ ∧ keyMatch "FUVA" "G130M" 1291 0 r = true ∧
        (∀ y ∈ l₁, keyMatch "FUVA" "G130M" 1291 0 y = false) ∧ (2469/2000 : ℚ) = r.fp_pixel_shift :=
  ⟨(osm_C2_resolver exTabNo2 "FUVX" "GX" 7 9).1 rfl,
   (osm_C2_resolver exTab2 "FUVA" "G130M" 1291 0).2 (2469/2000) rfl
     (by rfl)⟩

/-! ## C5: the drift-log write truncates -/

/-- Counterexample to C5: the drift log is NOT appended.  With prior
content `["prev"]` and an empty scan, the resulting file does not keep the
prior line followed by the new lines; it is empty. -/
theorem osm_C5_counterexample :
    ¬ writeDriftLog ["prev"] [] = ["prev"] ++ List.map formatDriftLine [] := by decide

/-- C5 amended.  `check_internal_drift` opens the drift log with mode
`'w'`: the scan overwrites the file, whose content afterwards is exactly
one formatted `<filePath> <segment> <spread> <exptime>` line per summary
row of this scan, in order, independent of any prior content. -/
theorem osm_C5_amended (priorA priorB : List String) (rows : List DriftRow) :
    writeDriftLog priorA rows = writeDriftLog priorB rows
    ∧ (writeDriftLog priorA rows).length = rows.length
    ∧ ∀ (j : ℕ) (row : DriftRow), rows[j]? = some row →
        (writeDriftLog priorA rows)[j]? = some (formatDriftLine row) := by
  refine ⟨rfl, by simp [writeDriftLog], ?_⟩
  intro j row hj
  simp [writeDriftLog, List.getElem?_map, hj]

/-- Witness for the amended C5 at a concrete prior content and a concrete
one-row scan. -/
theorem osm_C5_witness :
    writeDriftLog ["prev"] [exRow5] = writeDriftLog [] [exRow5]
    ∧ (writeDriftLog ["prev"] [exRow5]).length = 1
    ∧ (writeDriftLog ["prev"] [exRow5])[0]? = some (formatDriftLine exRow5) := by
  obtain ⟨h1, h2, h3⟩ := osm_C5_amended ["prev"] [] [exRow5]
  exact ⟨h1, by simpa using h2, h3 0 exRow5 rfl⟩

/-! ## C10: `fp_diff` dies on an unbound local -/

/-- C10.  Because `fp_diff` assigns to the name `fits`, that name is local
throughout the body; the right-hand side `fits.open(...)` of that very
assignment therefore reads the local before it is bound, and every
invocation fails with an unbound-local error at statement index 1 (right
after the print, before any data is read), for every global environment.
None of the later differential-pairing code is reached. -/
theorem osm_C10_unbound_local (globals : String → PyVal) :
    runFunctionBody globals fp_diff_body =
      Except.error (PyErr.unboundLocal "fits", 1) := rfl

/-- Witness for C10 at one concrete global environment. -/
theorem osm_C10_witness :
    runFunctionBody (fun _ => PyVal.obj "g") fp_diff_body =
      Except.error (PyErr.unboundLocal "fits", 1) :=
  osm_C10_unbound_local (fun _ => PyVal.obj "g")

/-! ## C1: multi-flash extraction -/

/-- The records produced for a row suffix starting at index `i`: one per
row, with flash index `(i + j) / 2 + 1`, corrected and rounded dispersion
shift, rounded cross-dispersion shift, and `found` copied from the row. -/
theorem lampRecords_spec (env : Env) (f : FitsFile) (fpz : ℤ) :
    ∀ (rows : List FlashRow) (i : ℕ),
      (∀ r ∈ rows, (resolveOf env f fpz r).isSome = true) →
      ∃ recs, lampRecords env f fpz i rows = some recs ∧ recs.length = rows.length ∧
        ∀ (j : ℕ) (r : FlashRow), rows[j]? = some r →
          ∃ off, resolveOf env f fpz r = some off ∧
            recs[j]? = some { baseOutInfo f with
              flash := some ((i + j) / 2 + 1),
              x_shift := some (round5 (r.shift_disp - off)),
              y_shift := some (round5 r.shift_xdisp),
              found := some r.spec_found } := by
  intro rows
  induction rows with
  | nil =>
    intro i _
    exact ⟨[], rfl, rfl, fun j r hj => by simp at hj⟩
  | cons r rs ih =>
    intro i h
    have hr : (resolveOf env f fpz r).isSome = true := h r (List.mem_cons_self r rs)
    obtain ⟨off, hoff⟩ := Option.isSome_iff_exists.mp hr
    obtain ⟨recs, hrecs, hlen, hspec⟩ := ih (i + 1) (fun x hx => h x (List.mem_cons_of_mem r hx))
    refine ⟨{ baseOutInfo f with
        flash := some (i / 2 + 1),
        x_shift := some (round5 (r.shift_disp - off)),
        y_shift := some (round5 r.shift_xdisp),
        found := some r.spec_found } :: recs, ?_, by simp [hlen], ?_⟩
    · simp [lampRecords, lampRecord, hoff, hrecs]
    · intro j rr hj
      cases j with
      | zero =>
        simp only [List.getElem?_cons_zero, Option.some.injEq] at hj
        subst hj
        exact ⟨off, hoff, by simp⟩
      | succ j =>
        simp only [List.getElem?_cons_succ] at hj ⊢
        obtain ⟨off2, ho2, h2⟩ := hspec j rr hj
        refine ⟨off2, ho2, ?_⟩
        have e : i + 1 + j = i + (j + 1) := by omega
        rw [e] at h2
        exact h2

/-- C1.  For a multi-flash file whose table has N rows (and whose
reference lookups all succeed, as the source otherwise raises),
`pull_flashes` yields exactly N records; the record of row index `j` has
flash index `j / 2 + 1`, dispersion shift `round5` of the reported shift
minus the resolved reference offset, cross-dispersion shift `round5` of
the reported value, and `found` copied verbatim. -/
theorem osm_C1_multiflash_extract (env : Env) (f : FitsFile) (fpz : ℤ)
    (hdisp : strContains f.filename "_lampflash.fits" = true)
    (hfp : f.fppos = some fpz)
    (hres : ∀ r ∈ f.rows, (resolveOf env f fpz r).isSome = true) :
    ∃ recs, pull_flashes env f = some recs ∧ recs.length = f.rows.length ∧
      ∀ (j : ℕ) (r : FlashRow), f.rows[j]? = some r →
        ∃ off, resolveOf env f fpz r = some off ∧
          recs[j]? = some { baseOutInfo f with
            flash := some (j / 2 + 1),
            x_shift := some (round5 (r.shift_disp - off)),
            y_shift := some (round5 r.shift_xdisp),
            found := some r.spec_found } := by
  obtain ⟨recs, h1, h2, h3⟩ := lampRecords_spec env f fpz f.rows 0 hres
  refine ⟨recs, ?_, h2, ?_⟩
  · simp [pull_flashes, hdisp, hfp, h1]
  · intro j r hj
    obtain ⟨off, ho, hr⟩ := h3 j r hj
    exact ⟨off, ho, by simpa using hr⟩

/-- Witness for C1: a one-row file against a table whose matching row has
offset 1.2345 and a reported shift of 10.0; the corrected, rounded shift
is 8.7655 as the spec's correction-application example requires. -/
theorem osm_C1_witness :
    (∃ recs, pull_flashes exEnv1 exFile1 = some recs ∧ recs.length = exFile1.rows.length ∧
      ∀ (j : ℕ) (r : FlashRow), exFile1.rows[j]? = some r →
        ∃ off, resolveOf exEnv1 exFile1 3 r = some off ∧
          recs[j]? = some { baseOutInfo exFile1 with
            flash := some (j / 2 + 1),
            x_shift := some (round5 (r.shift_disp - off)),
            y_shift := some (round5 r.shift_xdisp),
            found := some r.spec_found })
    ∧ round5 ((10 : ℚ) - 2469/2000) = 17531/2000 :=
  ⟨osm_C1_multiflash_extract exEnv1 exFile1 3 (by decide) rfl (by decide),
   by norm_num [round5, round]⟩

/-! ## C3: single-acquisition extraction -/

/-- C3.  For a `_rawacq.fits.gz` file with a readable companion header,
`pull_flashes` yields exactly one record with `found = false`,
`fppos = -1`, `flash = 1`; when LQTAYCOR > 0 the shifts are
`1023 - LQTAYCOR` and `1023 - LQTAXCOR`, and otherwise both are null
(`none`), not a numeric zero. -/
theorem osm_C3_rawacq (env : Env) (f : FitsFile) (spt : SptHeader)
    (h1 : strContains f.filename "_lampflash.fits" = false)
    (h2 : strContains f.filename "_rawacq.fits.gz" = true)
    (h3 : env.spt (strReplace f.filename "rawacq" "spt") = some spt) :
    pull_flashes env f = some [rawacqRecord f spt]
    ∧ (rawacqRecord f spt).found = some false
    ∧ (rawacqRecord f spt).fppos = some (-1)
    ∧ (rawacqRecord f spt).flash = some 1
    ∧ (0 < spt.lqtaycor →
        (rawacqRecord f spt).x_shift = some ((1023 : ℚ) - (spt.lqtaycor : ℚ)) ∧
        (rawacqRecord f spt).y_shift = some ((1023 : ℚ) - (spt.lqtaxcor : ℚ)))
    ∧ (¬ 0 < spt.lqtaycor →
        (rawacqRecord f spt).x_shift = none ∧ (rawacqRecord f spt).y_shift = none) := by
  refine ⟨by simp [pull_flashes, h1, h2, h3], rfl, rfl, rfl, ?_, ?_⟩
  · intro h; constructor <;> simp [rawacqRecord, h]
  · intro h; constructor <;> simp [rawacqRecord, h]

/-- Witness for C3: LQTAYCOR=500 and LQTAXCOR=300 give dispersion shift
523 and cross-dispersion shift 723, with found=false, fppos=-1,
flash=1. -/
theorem osm_C3_witness :
    pull_flashes exEnv3 exFile3 = some [rawacqRecord exFile3 exSpt3]
    ∧ (rawacqRecord exFile3 exSpt3).x_shift = some 523
    ∧ (rawacqRecord exFile3 exSpt3).y_shift = some 723
    ∧ (rawacqRecord exFile3 exSpt3).found = some false
    ∧ (rawacqRecord exFile3 exSpt3).fppos = some (-1)
    ∧ (rawacqRecord exFile3 exSpt3).flash = some 1 := by
  obtain ⟨ha, hb, hc, hd, he, _⟩ := osm_C3_rawacq exEnv3 exFile3 exSpt3 (by decide) (by decide) rfl
  obtain ⟨hx, hy⟩ := he (by decide)
  refine ⟨ha, ?_, ?_, hb, hc, hd⟩
  · rw [hx]; norm_num [exSpt3]
  · rw [hy]; norm_num [exSpt3]

/-! ## C4: per-segment drift spread -/

/-- The spread of one segment is defined exactly when at least two rows
match the segment, and then equals max minus min of their cross-dispersion
shifts. -/
theorem segmentSpread_spec (rows : List FlashRow) (seg : String) :
    ((segmentSpread rows seg).isSome = true ↔ 2 ≤ (xdispVals rows seg).length)
    ∧ ∀ d, segmentSpread rows seg = some d →
        ∃ mx mn, (xdispVals rows seg).max? = some mx ∧
          (xdispVals rows seg).min? = some mn ∧ d = mx - mn := by
  rcases hv : xdispVals rows seg with _ | ⟨a, _ | ⟨b, l⟩⟩
  · exact ⟨by simp [segmentSpread, hv], fun d hd => by simp [segmentSpread, hv] at hd⟩
  · exact ⟨by simp [segmentSpread, hv], fun d hd => by simp [segmentSpread, hv] at hd⟩
  · have hc : 1 < (a :: b :: l).length := by simp only [List.length_cons]; omega
    constructor
    · rw [segmentSpread, hv, if_pos hc]
      constructor
      · intro _; simp only [List.length_cons]; omega
      · intro _
        rw [List.max?_cons', List.min?_cons']
        rfl
    · intro d hd
      rw [segmentSpread, hv, if_pos hc, List.max?_cons', List.min?_cons'] at hd
      exact ⟨_, _, List.max?_cons', List.min?_cons', (Option.some.inj hd).symm⟩

/-- C4.  Within one file, a drift summary row for a segment exists iff
the segment is one of the two FUV segments and at least 2 flash rows match
it; every emitted row's spread is max minus min of the matching rows'
cross-dispersion shifts. -/
theorem osm_C4_drift_rows (path : String) (f : FitsFile) (seg : String) :
    ((∃ row, row ∈ fileDriftRows path f ∧ row.segment = seg) ↔
      ((seg = "FUVA" ∨ seg = "FUVB") ∧ 2 ≤ (xdispVals f.rows seg).length))
    ∧ ∀ row, row ∈ fileDriftRows path f →
        ∃ mx mn, (xdispVals f.rows row.segment).max? = some mx ∧
          (xdispVals f.rows row.segment).min? = some mn ∧ row.diff = mx - mn := by
  constructor
  · constructor
    · rintro ⟨row, hrow, hseg⟩
      obtain ⟨s, hs, hg⟩ := List.mem_filterMap.mp hrow
      obtain ⟨d, hd, hrec⟩ := Option.map_eq_some'.mp hg
      have hseg2 : s = seg := by rw [← hseg, ← hrec]
      subst hseg2
      refine ⟨by simpa using hs, ?_⟩
      exact (segmentSpread_spec f.rows s).1.mp (by rw [hd]; rfl)
    · rintro ⟨hdisj, hlen⟩
      have hsome : (segmentSpread f.rows seg).isSome = true :=
        (segmentSpread_spec f.rows seg).1.mpr hlen
      obtain ⟨d, hd⟩ := Option.isSome_iff_exists.mp hsome
      refine ⟨{ filePath := path, segment := seg, diff := d, exptime := f.exptime },
        List.mem_filterMap.mpr ⟨seg, ?_, ?_⟩, rfl⟩
      · rcases hdisj with h | h <;> simp [h]
      · rw [hd]; rfl
  · intro row hrow
    obtain ⟨s, hs, hg⟩ := List.mem_filterMap.mp hrow
    obtain ⟨d, hd, hrec⟩ := Option.map_eq_some'.mp hg
    obtain ⟨mx, mn, h1, h2, h3⟩ := (segmentSpread_spec f.rows s).2 d hd
    subst hrec
    exact ⟨mx, mn, h1, h2, h3⟩

/-- Witness for C4: on a file whose FUVA cross-dispersion values are
[0.5, -0.3, 0.1] a FUVA row is emitted, every row's spread is max minus
min, and the concrete spread is 0.8 (= 4/5); the FUVB segment, with no
matching row, produces no summary row. -/
theorem osm_C4_witness :
    (∃ row, row ∈ fileDriftRows "p" exFile4 ∧ row.segment = "FUVA")
    ∧ (∀ row, row ∈ fileDriftRows "p" exFile4 →
        ∃ mx mn, (xdispVals exFile4.rows row.segment).max? = some mx ∧
          (xdispVals exFile4.rows row.segment).min? = some mn ∧ row.diff = mx - mn)
    ∧ ¬ (∃ row, row ∈ fileDriftRows "p" exFile4 ∧ row.segment = "FUVB")
    ∧ segmentSpread exFile4.rows "FUVA" = some (4/5) :=
  ⟨(osm_C4_drift_rows "p" exFile4 "FUVA").1.mpr (by decide),
   (osm_C4_drift_rows "p" exFile4 "FUVA").2,
   fun h => by
     have := (osm_C4_drift_rows "p" exFile4 "FUVB").1.mp h
     revert this
     decide,
   by
     norm_num [segmentSpread, xdispVals, exFile4, List.filter, List.max?_cons',
       List.min?_cons', max_def, min_def]⟩

/-! ## C6: the yielded records alias one mutable dictionary -/

/-- Stepping the shared dictionary produces exactly the per-row records:
each iteration overwrites all four per-row fields and never touches the
header fields, so the state after iteration `i` is the i-th record. -/
theorem genStates_eq_lampRecords (env : Env) (f : FitsFile) (fpz : ℤ) :
    ∀ (rows : List FlashRow) (i : ℕ) (st : OutInfo),
      st.date = f.expstart → st.proposid = f.proposid → st.detector = f.detector →
      st.opt_elem = f.opt_elem → st.cenwave = f.cenwave → st.fppos = f.fppos →
      st.lamptab = lamptabName f.lamptab →
      genStates env fpz st i rows = lampRecords env f fpz i rows := by
  intro rows
  induction rows with
  | nil => intros; rfl
  | cons r rs ih =>
    intro i st h1 h2 h3 h4 h5 h6 h7
    have hstep : genStep env fpz st i r = lampRecord env f fpz i r := by
      unfold genStep lampRecord resolveOf
      rw [h4, h5, h7]
      cases hoff : fppos_shift (env.lamptabs (lamptabName f.lamptab)) r.segment f.opt_elem
          f.cenwave (fpz - 3) with
      | none => rfl
      | some off =>
        simp only [Option.map_some']
        cases st
        simp_all [baseOutInfo]
    rw [genStates, lampRecords, hstep]
    cases hlr : lampRecord env f fpz i r with
    | none => rfl
    | some o =>
      have hbase : o.date = f.expstart ∧ o.proposid = f.proposid ∧ o.detector = f.detector ∧
          o.opt_elem = f.opt_elem ∧ o.cenwave = f.cenwave ∧ o.fppos = f.fppos ∧
          o.lamptab = lamptabName f.lamptab := by
        obtain ⟨off, _, hrec⟩ := Option.map_eq_some'.mp hlr
        rw [← hrec]
        exact ⟨rfl, rfl, rfl, rfl, rfl, rfl, rfl⟩
      obtain ⟨b1, b2, b3, b4, b5, b6, b7⟩ := hbase
      show Option.map (fun os => o :: os) (genStates env fpz o (i + 1) rs) =
          Option.map (fun os => o :: os) (lampRecords env f fpz (i + 1) rs)
      rw [ih (i + 1) o b1 b2 b3 b4 b5 b6 b7]

/-- Counterexample to C6: the yielded records are not immutable values.
On a two-row file the generator's shared dictionary takes two different
values, so the reference yielded at step 0, observed after step 1 has run
(`observedAt states 1`), no longer holds its creation value
(`states[0]?`). -/
theorem osm_C6_counterexample :
    ∃ states, pull_flashes exEnv6 exFile6 = some states ∧ states.length = 2 ∧
      observedAt states 1 ≠ states[0]? := by
  obtain ⟨s, hs, hlen, hspec⟩ := lampRecords_spec exEnv6 exFile6 3 exFile6.rows 0
    (fun r _ => rfl)
  refine ⟨s, hs, by simpa using hlen, ?_⟩
  obtain ⟨off0, _, h0⟩ := hspec 0 ⟨"FUVA", 1, 2, true⟩ rfl
  obtain ⟨off1, _, h1⟩ := hspec 1 ⟨"FUVA", 3, 4, false⟩ rfl
  intro heq
  have h01 : s[1]? = s[0]? := heq
  rw [h0, h1] at h01
  have hf := congrArg OutInfo.found (Option.some.inj h01)
  simp at hf

/-- C6 amended.  All records yielded for one file are the successive
states of ONE shared dictionary, updated in place: the sequence of
per-yield values equals the extraction sequence, but a reference yielded
earlier observes, at any later time `t`, the t-th (most recent) state
rather than its own creation value. -/
theorem osm_C6_amended (env : Env) (f : FitsFile) (fpz : ℤ)
    (hdisp : strContains f.filename "_lampflash.fits" = true)
    (hfp : f.fppos = some fpz)
    (hres : ∀ r ∈ f.rows, (resolveOf env f fpz r).isSome = true) :
    ∃ states, pull_flashes env f = some states
      ∧ genStates env fpz (baseOutInfo f) 0 f.rows = some states
      ∧ ∀ i t : ℕ, i ≤ t → observedAt states t = states[t]? := by
  obtain ⟨recs, h1, _, _⟩ := lampRecords_spec env f fpz f.rows 0 hres
  refine ⟨recs, by simp [pull_flashes, hdisp, hfp, h1], ?_, fun i t _ => rfl⟩
  rw [genStates_eq_lampRecords env f fpz f.rows 0 (baseOutInfo f) rfl rfl rfl rfl rfl rfl rfl]
  exact h1

/-- Witness for the amended C6 on the concrete two-row file. -/
theorem osm_C6_witness :
    ∃ states, pull_flashes exEnv6 exFile6 = some states
      ∧ genStates exEnv6 3 (baseOutInfo exFile6) 0 exFile6.rows = some states
      ∧ ∀ i t : ℕ, i ≤ t → observedAt states t = states[t]? :=
  osm_C6_amended exEnv6 exFile6 3 (by decide) rfl (fun r _ => rfl)

/-! ## C7: the fitted series is the raw series, not the per-day medians -/

/-- Counterexample to C7: on bucket `exB7` the slope the code fits (over
the raw per-exposure pairs) is -2 while the slope over the spec's per-day
median series is 1; and on `exB7gap` the plotted per-day series has one
entry per integer day of the full range (3 entries, including an empty
day), not one per distinct day present (2). -/
theorem osm_C7_counterexample :
    (panelFit exB7).1 ≠ olsSlope (specPerDayPairs exB7)
    ∧ (cenwavePlotSeries exB7gap).length ≠ (specPerDayMedians (bucketPairs exB7gap)).length := by
  have h1 : (panelFit exB7).1 = -2 := by
    norm_num [panelFit, fit_data, olsSlope, exB7, List.zip, List.zipWith]
  have e5 : bucketPairs exB7 = [((0 : ℚ), (0 : ℚ)), (0, 0), (0, 9), (1, 1)] := by
    norm_num [bucketPairs, exB7]
  have h2 : specPerDayPairs exB7 = [(0, 0), (1, 1)] := by
    rw [specPerDayPairs, specPerDayMedians, e5]
    norm_num [pyTrunc, npMedian, sortQ, List.insertionSort, List.orderedInsert,
      List.filterMap_cons, List.filter]
    simp
  have h3 : olsSlope [((0 : ℚ), (0 : ℚ)), (1, 1)] = 1 := by norm_num [olsSlope]
  have e1 : exB7gap.map (fun r => pyTrunc r.mjd) = [0, 2] := by
    norm_num [exB7gap, pyTrunc]
  have h4 : (cenwavePlotSeries exB7gap).length = 3 := by
    rw [cenwavePlotSeries, e1]
    show ((intRange 0 2).map (fun d => (d, npMedian (dayVals exB7gap d)))).length = 3
    decide
  have e4 : bucketPairs exB7gap = [((0 : ℚ), (1 : ℚ)), (2, 5)] := by
    norm_num [bucketPairs, exB7gap]
  have h5 : (specPerDayMedians (bucketPairs exB7gap)).length = 2 := by
    rw [specPerDayMedians, e4]
    norm_num [pyTrunc, npMedian, sortQ, List.insertionSort, List.orderedInsert,
      List.filterMap_cons, List.filter]
  refine ⟨?_, ?_⟩
  · rw [h1, h2, h3]; norm_num
  · rw [h4, h5]; norm_num

/-- C7 amended.  For every nonempty configuration bucket: the per-grating
cenwave plot series covers every integer day from the bucket's minimum to
its maximum truncated day, pairing each day with the `np.median` of that
day's shifts (undefined on days with no data); while the ordinary
least-squares fit drawn on the trend panels is computed over the raw
per-exposure (MJD, shift) pairs of the bucket, not over any reduced
series. -/
theorem osm_C7_amended (b : List ShiftRow) (hb : b ≠ []) :
    (∃ lo hi, (b.map (fun r => pyTrunc r.mjd)).min? = some lo ∧
       (b.map (fun r => pyTrunc r.mjd)).max? = some hi ∧
       (cenwavePlotSeries b).map Prod.fst = intRange lo hi ∧
       ∀ (d : ℤ) (med : Option ℚ), (d, med) ∈ cenwavePlotSeries b →
         med = npMedian (dayVals b d))
    ∧ panelFit b = (olsSlope (bucketPairs b), olsIntercept (bucketPairs b)) := by
  constructor
  · cases b with
    | nil => exact absurd rfl hb
    | cons r bs =>
      refine ⟨_, _, rfl, rfl, ?_, ?_⟩
      · show (((intRange _ _).map
            (fun d => (d, npMedian (dayVals (r :: bs) d)))).map Prod.fst) = intRange _ _
        simp only [List.map_map]
        have hcomp : (Prod.fst ∘ fun d => (d, npMedian (dayVals (r :: bs) d))) = id := rfl
        rw [hcomp, List.map_id]
      · intro d med hm
        have hm2 : (d, med) ∈ (intRange ((bs.map (fun x => pyTrunc x.mjd)).foldl min
              (pyTrunc r.mjd)) ((bs.map (fun x => pyTrunc x.mjd)).foldl max (pyTrunc r.mjd))).map
            (fun d => (d, npMedian (dayVals (r :: bs) d))) := hm
        obtain ⟨d2, _, heq⟩ := List.mem_map.mp hm2
        simp only [Prod.mk.injEq] at heq
        obtain ⟨hd, hmed⟩ := heq
        subst hd
        exact hmed.symm
  · unfold panelFit fit_data bucketPairs
    rw [List.zip_map']

/-- Witness for the amended C7 on the concrete bucket `exB7`. -/
theorem osm_C7_witness :
    (∃ lo hi, (exB7.map (fun r => pyTrunc r.mjd)).min? = some lo ∧
       (exB7.map (fun r => pyTrunc r.mjd)).max? = some hi ∧
       (cenwavePlotSeries exB7).map Prod.fst = intRange lo hi ∧
       ∀ (d : ℤ) (med : Option ℚ), (d, med) ∈ cenwavePlotSeries exB7 →
         med = npMedian (dayVals exB7 d))
    ∧ panelFit exB7 = (olsSlope (bucketPairs exB7), olsIntercept (bucketPairs exB7)) :=
  osm_C7_amended exB7 (by decide)

/-! ## C8: filename deduplication in the corpus walk -/

/-- A file whose basename is already recorded is skipped entirely. -/
theorem processFile_skip (st : List String × List DriftRow) (wf : WalkFile)
    (h : wf.name ∈ st.1) : processFile st wf = st := by
  simp [processFile, h]

/-- Processing one file never removes recorded basenames. -/
theorem processFile_checked_sub (st : List String × List DriftRow) (wf : WalkFile) :
    st.1 ⊆ (processFile st wf).1 := by
  unfold processFile
  repeat' split
  any_goals exact List.Subset.refl _
  exact List.subset_append_left _ _

/-- Recorded basenames persist over the rest of the fold. -/
theorem foldl_checked_sub : ∀ (l : List WalkFile) (st : List String × List DriftRow),
    st.1 ⊆ (l.foldl processFile st).1 := by
  intro l
  induction l with
  | nil => intro st; exact List.Subset.refl _
  | cons wf t ih =>
    intro st
    exact (processFile_checked_sub st wf).trans (ih (processFile st wf))

/-- A file that passes every filter leaves its basename recorded. -/
theorem processFile_pass_mem (st : List String × List DriftRow) (wf : WalkFile)
    (h : passesFilters wf) : wf.name ∈ (processFile st wf).1 := by
  obtain ⟨h1, h2, h3, h4⟩ := h
  by_cases hm : wf.name ∈ st.1
  · rw [processFile_skip st wf hm]; exact hm
  · simp [processFile, hm, h1, h2, h3, h4]

/-- C8 amended.  A basename is recorded as seen only once an occurrence
passes every per-file filter; from then on, any later file with that
basename is skipped and contributes no drift rows.  (An occurrence whose
earlier same-named occurrences were all filtered out is, by contrast,
processed again — see the counterexample.) -/
theorem osm_C8_amended (walkA : List WalkFile) (wf : WalkFile) (walkB : List WalkFile)
    (wf2 : WalkFile) (hpass : passesFilters wf) (hname : wf2.name = wf.name) :
    check_internal_drift (walkA ++ wf :: walkB ++ [wf2]) =
      check_internal_drift (walkA ++ wf :: walkB) := by
  have hmem : wf.name ∈ (scanState (walkA ++ wf :: walkB)).1 := by
    unfold scanState
    rw [List.foldl_append, List.foldl_cons]
    exact foldl_checked_sub walkB _ (processFile_pass_mem _ wf hpass)
  have hsplit : walkA ++ wf :: walkB ++ [wf2] = (walkA ++ wf :: walkB) ++ [wf2] := by
    simp
  unfold check_internal_drift
  rw [hsplit]
  unfold scanState
  rw [List.foldl_append, List.foldl_cons, List.foldl_nil]
  rw [processFile_skip _ wf2 (by rw [hname]; exact hmem)]

/-- Witness for the amended C8: a later file with the basename of an
earlier fully processed file adds nothing to the scan output. -/
theorem osm_C8_witness :
    check_internal_drift [exW8c, exW8d] = check_internal_drift [exW8c] :=
  osm_C8_amended [] exW8c [] exW8d ⟨by decide, by decide, by decide, by decide⟩ rfl

/-- Counterexample to C8: a basename seen once IS reprocessed when its
first occurrence was filtered out.  `exW8nuv` (an NUV file, skipped
without being recorded) and `exW8fuv` share one basename; the later
occurrence is processed and every drift row of the scan comes from it. -/
theorem osm_C8_counterexample :
    exW8nuv.name = exW8fuv.name
    ∧ check_internal_drift [exW8nuv, exW8fuv] ≠ []
    ∧ (check_internal_drift [exW8nuv, exW8fuv]).map (fun row => row.filePath) =
        [pathJoin exW8fuv.root exW8fuv.name] := by
  have hmap : (check_internal_drift [exW8nuv, exW8fuv]).map (fun row => row.filePath) =
      [pathJoin exW8fuv.root exW8fuv.name] := rfl
  refine ⟨rfl, ?_, hmap⟩
  intro h
  rw [h] at hmap
  simp at hmap

/-! ## C9: the cross-segment differential of `fp_diff` -/

/-- C9.  For every dataset name of the FUV-filtered shift table: when both
segment rows exist, the pair `(mjd, FUVA x_shift - FUVB x_shift)` taken
from the first rows of each segment lands in the `diff_dict` bucket of the
FUVA row's cenwave; a dataset missing either segment row produces no
differential (`datasetDiff` is `none`) and is silently dropped from every
bucket, with no error. -/
theorem osm_C9_fp_diff (tbl : List ShiftRow) (nm : String) :
    (∀ a b, firstWhere (fuvData tbl) nm "FUVA" = some a →
        firstWhere (fuvData tbl) nm "FUVB" = some b →
        (a.mjd, a.x_shift - b.x_shift) ∈ fp_diff_entries tbl a.cenwave)
    ∧ (firstWhere (fuvData tbl) nm "FUVA" = none → datasetDiff (fuvData tbl) nm = none)
    ∧ (firstWhere (fuvData tbl) nm "FUVB" = none → datasetDiff (fuvData tbl) nm = none)
    ∧ (datasetDiff (fuvData tbl) nm = none →
        ∀ cw, fp_diff_entries tbl cw =
          ((sortedDatasets tbl).filter (fun n => n ≠ nm)).filterMap (fpEntry tbl cw)) := by
  refine ⟨?_, ?_, ?_, ?_⟩
  · intro a b hA hB
    have hmemA : a ∈ (fuvData tbl).filter
        (fun r => r.dataset == nm && r.segment == "FUVA") := by
      exact headSome_mem hA
    rw [List.mem_filter] at hmemA
    obtain ⟨hmem, hprop⟩ := hmemA
    simp only [Bool.and_eq_true, beq_iff_eq] at hprop
    have hnm : nm ∈ sortedDatasets tbl := by
      unfold sortedDatasets
      rw [(List.perm_insertionSort _ _).mem_iff, List.mem_dedup]
      exact List.mem_map.mpr ⟨a, hmem, hprop.1⟩
    apply List.mem_filterMap.mpr
    refine ⟨nm, hnm, ?_⟩
    simp [fpEntry, datasetDiff, hA, hB]
  · intro h
    unfold datasetDiff
    rw [h]
  · intro h
    unfold datasetDiff
    rw [h]
    rcases firstWhere (fuvData tbl) nm "FUVA" with _ | a <;> rfl
  · intro h cw
    unfold fp_diff_entries
    exact filterMap_drop_none (fpEntry tbl cw) nm (by simp [fpEntry, h]) (sortedDatasets tbl)

/-- Witness for C9 on `exTbl9`: d1's differential 5.0 - 3.0 = 2.0 appears
in the cenwave-1291 bucket, and d2 (no FUVB row) yields no differential. -/
theorem osm_C9_witness :
    ((10 : ℚ), (2 : ℚ)) ∈ fp_diff_entries exTbl9 1291
    ∧ datasetDiff (fuvData exTbl9) "d2" = none := by
  constructor
  · have h := (osm_C9_fp_diff exTbl9 "d1").1 exA9 exB9 rfl rfl
    have e : ((10 : ℚ), (2 : ℚ)) = (exA9.mjd, exA9.x_shift - exB9.x_shift) := by
      norm_num [exA9, exB9]
    rw [e]
    exact h
  · exact (osm_C9_fp_diff exTbl9 "d2").2.2.1 rfl
